import Mathlib

/-!
# Verification of the mem-rs OS wrapper layer and injection engine contract

Shallow embedding of `src/mem/src/windows/wrappers.rs` and (where the
injector engine source is absent from the repository snapshot) a model of
the engine built from the specification.

Each wrapper in `wrappers.rs` performs exactly one OS call and inspects its
returned value (and, on failure, `GetLastError`).  The embedding therefore
represents each wrapper as a pure function from the value the OS call
returned (an oracle input, written `osResult` or similar) and the current
`GetLastError` code to the wrapper's Rust return value.  Pointers and Win32
handles are modelled as `Int` (isize), with `0` the null value and `-1` the
pseudo/invalid handle value; `DWORD`s are `Nat` reduced mod 2^32 where it
matters (the wrappers only compare them, so no arithmetic overflow arises).
-/

/-- The crate's `Error` enum (`mem::error::Error`).  Its source file is not
part of the repository snapshot; the constructors below are exactly the
variants constructed in `wrappers.rs`, each carrying the `GetLastError`
code (`WIN32_ERROR`, a u32, modelled as `Nat`) except `Timeout`, which is
constructed without a payload (line 204). -/
inductive Error where
  | Handle (code : Nat)
  | MemoryError (code : Nat)
  | Allocation (code : Nat)
  | Timeout
  | ProcessError (code : Nat)
  | ConsoleAllocation (code : Nat)
  | ConsoleDeallocation (code : Nat)
  | ProcessAddress (code : Nat)
  deriving DecidableEq, Repr

/-- `HANDLE::is_invalid` from the `windows` crate used by `wrappers.rs`:
a `HANDLE` wraps an `isize` and is invalid when it is the null handle `0`
or `INVALID_HANDLE_VALUE` (`-1`). -/
def handleIsInvalid (h : Int) : Bool := h == 0 || h == -1

/-- Embedding of `get_module_handle` (wrappers.rs lines 108-116).
`hinstance` is the `isize` wrapped by the `HINSTANCE` that `GetModuleHandleA`
returned; `lastError` is the `GetLastError` value.  The wrapper errors
exactly when `hinstance.is_negative()`. -/
def get_module_handle (hinstance : Int) (lastError : Nat) : Except Error Int :=
  if hinstance < 0 then .error (.Handle lastError) else .ok hinstance

/-- Embedding of `wait_for_single_object` (wrappers.rs lines 200-208).
`osResult` is the u32 that `WaitForSingleObject(handle, milliseconds)`
returned.  The wrapper errors exactly when `osResult == 0xFFFF_FFFF`
(`WAIT_FAILED`); every other outcome, including `WAIT_TIMEOUT = 0x102`,
is returned as success. -/
def wait_for_single_object (osResult : Nat) : Except Error Nat :=
  if osResult = 0xFFFFFFFF then .error .Timeout else .ok osResult

/-- Embedding of `get_proc_address` (wrappers.rs lines 467-472).
`osResult` is the `FARPROC` option that `GetProcAddress` returned
(`none` when the OS reports no address, `some addr` otherwise); the
wrapper maps `none` to `Error::ProcessAddress(GetLastError())` via
`ok_or_else` and otherwise returns the address as a usize. -/
def get_proc_address (osResult : Option Nat) (lastError : Nat) : Except Error Nat :=
  match osResult with
  | none => .error (.ProcessAddress lastError)
  | some addr => .ok addr

/-- Embedding of `virtual_alloc_ex` (wrappers.rs lines 482-496).
`osResult` is the base address `VirtualAllocEx` returned (a pointer,
null = `0`).  The wrapper errors exactly when the pointer `is_null()`. -/
def virtual_alloc_ex (osResult : Nat) (lastError : Nat) : Except Error Nat :=
  if osResult = 0 then .error (.MemoryError lastError) else .ok osResult

/-- Embedding of `open_process` (wrappers.rs lines 341-345).  The wrapper
returns the raw `HANDLE` from `OpenProcess` unchecked: there is no failure
test and no `Result` wrapping (`#[must_use] ... -> Handle`). -/
def open_process (osHandle : Int) : Int := osHandle

/-- Embedding of `get_current_process` (wrappers.rs lines 300-302): the raw
pseudo `HANDLE` from `GetCurrentProcess`, returned unchecked. -/
def get_current_process (osHandle : Int) : Int := osHandle

/-- Embedding of `get_async_key_state` (wrappers.rs line 149): the raw i16
from `GetAsyncKeyState`, returned unchecked. -/
def get_async_key_state (osResult : Int) : Int := osResult

/-- Embedding of `close_handle` (wrappers.rs lines 290-298). `osOk` is the
BOOL `CloseHandle` returned. -/
def close_handle (osOk : Bool) (lastError : Nat) : Except Error Unit :=
  if osOk then .ok () else .error (.Handle lastError)

/-- Embedding of `virtual_query_ex` (wrappers.rs lines 123-135). `numBytes`
is the usize `VirtualQueryEx` returned; zero means failure. -/
def virtual_query_ex (numBytes : Nat) (lastError : Nat) : Except Error Nat :=
  if numBytes = 0 then .error (.MemoryError lastError) else .ok numBytes

/-- Embedding of `virtual_protect_ex` (wrappers.rs lines 156-170). `osOk` is
the BOOL `VirtualProtectEx` returned. -/
def virtual_protect_ex (osOk : Bool) (lastError : Nat) : Except Error Unit :=
  if osOk then .ok () else .error (.Allocation lastError)

/-- Embedding of `virtual_protect` (wrappers.rs lines 177-190). `osOk` is
the BOOL `VirtualProtect` returned. -/
def virtual_protect (osOk : Bool) (lastError : Nat) : Except Error Unit :=
  if osOk then .ok () else .error (.MemoryError lastError)

/-- Embedding of `alloc_console` (wrappers.rs lines 309-317). -/
def alloc_console (osOk : Bool) (lastError : Nat) : Except Error Unit :=
  if osOk then .ok () else .error (.ConsoleAllocation lastError)

/-- Embedding of `free_console` (wrappers.rs lines 321-329). -/
def free_console (osOk : Bool) (lastError : Nat) : Except Error Unit :=
  if osOk then .ok () else .error (.ConsoleDeallocation lastError)

/-- Embedding of `create_tool_help32_snapshot` (wrappers.rs lines 352-359).
`osHandle` is the `HANDLE` `CreateToolhelp32Snapshot` returned; the wrapper
errors exactly when the handle `is_invalid()`. -/
def create_tool_help32_snapshot (osHandle : Int) (lastError : Nat) : Except Error Int :=
  if handleIsInvalid osHandle then .error (.MemoryError lastError) else .ok osHandle

/-- Embedding of `module32_first` (wrappers.rs lines 365-372). -/
def module32_first (osOk : Bool) (lastError : Nat) : Except Error Unit :=
  if osOk then .ok () else .error (.MemoryError lastError)

/-- Embedding of `module32_next` (wrappers.rs lines 379-386). -/
def module32_next (osOk : Bool) (lastError : Nat) : Except Error Unit :=
  if osOk then .ok () else .error (.MemoryError lastError)

/-- Embedding of `process32_first` (wrappers.rs lines 393-400). -/
def process32_first (osOk : Bool) (lastError : Nat) : Except Error Unit :=
  if osOk then .ok () else .error (.MemoryError lastError)

/-- Embedding of `process32_next` (wrappers.rs lines 406-413). -/
def process32_next (osOk : Bool) (lastError : Nat) : Except Error Unit :=
  if osOk then .ok () else .error (.MemoryError lastError)

/-- Embedding of `read_process_memory` (wrappers.rs lines 447-460). `osOk`
is the BOOL `ReadProcessMemory` returned. -/
def read_process_memory (osOk : Bool) (lastError : Nat) : Except Error Unit :=
  if osOk then .ok () else .error (.MemoryError lastError)

/-- Embedding of `virtual_free_ex` (wrappers.rs lines 503-515). -/
def virtual_free_ex (osOk : Bool) (lastError : Nat) : Except Error Unit :=
  if osOk then .ok () else .error (.MemoryError lastError)

/-- Embedding of `disable_thread_library_calls` (wrappers.rs lines 523-530). -/
def disable_thread_library_calls (osOk : Bool) (lastError : Nat) : Except Error Unit :=
  if osOk then .ok () else .error (.Handle lastError)

/-- Embedding of `get_process_id` (wrappers.rs lines 536-544). `pid` is the
u32 `GetProcessId` returned; zero means failure. -/
def get_process_id (pid : Nat) (lastError : Nat) : Except Error Nat :=
  if pid = 0 then .error (.Handle lastError) else .ok pid

/-- Outcome of the `WriteProcessMemory` OS call as the wrapper observes it:
the BOOL return value and the count the OS stored through
`lpNumberOfBytesWritten`.  The Win32 contract (quoted in the wrapper's own
doc comment, wrappers.rs lines 415-416: the entire area to be written to
must be accessible or the operation fails) is that `success = true` only
when all `size` requested bytes were transferred. -/
structure WriteOsOutcome where
  success : Bool
  written : Nat
  deriving DecidableEq, Repr

set_option linter.unusedVariables false in
/-- Embedding of `write_process_memory` (wrappers.rs lines 420-441).
`size` is the requested byte count (passed through to the OS call); the
wrapper returns `Ok(())` exactly when the BOOL is true and never inspects
`os.written`. -/
def write_process_memory (size : Nat) (os : WriteOsOutcome) (lastError : Nat) :
    Except Error Unit :=
  if os.success then .ok () else .error (.MemoryError lastError)

/-! ## Return-shape view of the wrapper layer

The spec's OS Capability Layer contract says each wrapped call hands the
caller a typed `Result`, never an unchecked raw value.  `OpReturn`
classifies what a wrapper actually hands back: a checked success, a checked
typed error, or a raw unchecked value. -/

/-- What a wrapper function returns to its caller: a checked `Ok`, a
checked typed `Err`, or the raw OS value with no check at all. -/
inductive OpReturn where
  | checkedOk : OpReturn
  | checkedErr (e : Error) : OpReturn
  | raw (v : Int) : OpReturn
  deriving DecidableEq, Repr

/-- The return shape of a wrapper that returns `Result<_, Error>`. -/
def resultView {α : Type} (r : Except Error α) : OpReturn :=
  match r with
  | .ok _ => .checkedOk
  | .error e => .checkedErr e

/-- The return shape of `open_process`: the raw handle, unchecked. -/
def open_process_view (osHandle : Int) : OpReturn := .raw (open_process osHandle)

/-- The return shape of `get_current_process`: the raw handle, unchecked. -/
def get_current_process_view (osHandle : Int) : OpReturn :=
  .raw (get_current_process osHandle)

/-- The return shape of `get_async_key_state`: the raw i16, unchecked. -/
def get_async_key_state_view (osResult : Int) : OpReturn :=
  .raw (get_async_key_state osResult)

/-- A return shape is checked when the caller receives a success value or a
typed error — anything but a raw unchecked value. -/
def OpReturn.isChecked : OpReturn → Bool
  | .checkedOk => true
  | .checkedErr _ => true
  | .raw _ => false

/-! ## Thread-creation wrappers (argument defaulting and result check) -/

/-- The argument tuple `create_remote_thread` (wrappers.rs lines 221-247)
passes to the `CreateRemoteThread` OS call.  Pointer-typed arguments are
modelled as `Int` with null = `0`. -/
structure CrtOsArgs where
  process : Int
  threadAttributes : Int
  stackSize : Nat
  startAddress : Int
  parameter : Int
  creationFlags : Nat
  threadId : Int
  deriving DecidableEq, Repr

/-- How `create_remote_thread` builds the OS-call arguments: each `None`
option is defaulted with `unwrap_or(null_mut())`. -/
def create_remote_thread_args (process : Int) (threadAttributes : Option Int)
    (stackSize : Nat) (startAddress : Int) (parameter : Option Int)
    (creationFlags : Nat) (threadId : Option Int) : CrtOsArgs :=
  { process := process
    threadAttributes := threadAttributes.getD 0
    stackSize := stackSize
    startAddress := startAddress
    parameter := parameter.getD 0
    creationFlags := creationFlags
    threadId := threadId.getD 0 }

/-- How `create_remote_thread` checks the `HANDLE` the OS call returned:
error exactly when `handle.is_invalid()`, else the handle as success. -/
def create_remote_thread (osHandle : Int) (lastError : Nat) : Except Error Int :=
  if handleIsInvalid osHandle then .error (.ProcessError lastError) else .ok osHandle

/-- The argument tuple `create_thread` (wrappers.rs lines 260-284) passes to
the `CreateThread` OS call (no target-process argument). -/
structure CtOsArgs where
  threadAttributes : Int
  stackSize : Nat
  startAddress : Int
  parameter : Int
  creationFlags : Nat
  threadId : Int
  deriving DecidableEq, Repr

/-- How `create_thread` builds the OS-call arguments: each `None` option is
defaulted with `unwrap_or(null_mut())`. -/
def create_thread_args (threadAttributes : Option Int) (stackSize : Nat)
    (startAddress : Int) (parameter : Option Int) (creationFlags : Nat)
    (threadId : Option Int) : CtOsArgs :=
  { threadAttributes := threadAttributes.getD 0
    stackSize := stackSize
    startAddress := startAddress
    parameter := parameter.getD 0
    creationFlags := creationFlags
    threadId := threadId.getD 0 }

/-- How `create_thread` checks the `HANDLE` the OS call returned: error
exactly when `res.is_invalid()`, else the handle as success. -/
def create_thread (osHandle : Int) (lastError : Nat) : Except Error Int :=
  if handleIsInvalid osHandle then .error (.ProcessError lastError) else .ok osHandle

/-! ## The injection engine

The `mem::injector` module (`Injector::inject`, `Config`,
`InjectionMethod`) is used by `src/examples/injector.rs` but its source
file is not part of the repository snapshot, so the engine is modelled from
the specification (spec sections 4.1, 4.3 and 7): validate the module path
before any OS call, open the target, run the configured Method's four
phases a-d against the OS layer, close the handle on every exit path after
a successful open, and map each first failure to its taxonomy kind. -/

/-- The engine's failure taxonomy.  Modelled from the spec: section 7 of
the specification (the `mem::injector` result type is not in the
snapshot). -/
inductive InjectError where
  | InvalidInput
  | TargetUnreachable
  | AllocationFailed
  | WriteFailed
  | SymbolResolutionFailed
  | RemoteExecutionFailed
  | Timeout
  deriving DecidableEq, Repr

/-- One OS Capability Layer call made during an `inject` run, in the order
the engine issued them. -/
inductive Ev where
  | evOpen
  | evAlloc
  | evWrite
  | evResolve
  | evCreateThread
  | evWait
  | evFree
  | evClose
  deriving DecidableEq, Repr

/-- The OS layer's responses to the calls one `inject` run can make:
whether the open succeeds, the staged allocation's base address (`none` on
allocation failure), whether the cross-process write succeeds, the resolved
entry-point address (`none` on resolution failure), whether remote thread
creation succeeds, whether the wait signals before the timeout, and the
remote thread's exit code. -/
structure OsBehavior where
  openOk : Bool
  allocBase : Option Nat
  writeOk : Bool
  resolveAddr : Option Nat
  threadOk : Bool
  waitSignaled : Bool
  exitCode : Nat
  deriving DecidableEq, Repr

/-- Modelled from the spec: `Injector::inject` with the default
loader-invocation Method (spec sections 4.1 and 4.3); the `mem::injector`
source is not in the snapshot.  `pathValid` is whether `module_path`
references an existing, readable regular file.  Returns the engine's result
together with the trace of OS-layer calls it made:
path check (no OS call on failure); step 1 open (terminal
`TargetUnreachable`); phase a stage (allocate then write, freeing the
staged allocation if the write fails); phase b entry-point resolution
(freeing the staged allocation, never creating a thread, on failure);
phase c remote thread creation (freeing on failure); phase d wait
(`Timeout` on elapse, with the remote thread still owning the staged
buffer; on signal, free the transient allocation and succeed with the
thread's exit code); the handle is closed on every path after a successful
open. -/
def inject (pathValid : Bool) (os : OsBehavior) :
    Except InjectError Nat × List Ev :=
  if pathValid = false then (.error .InvalidInput, [])
  else if os.openOk = false then (.error .TargetUnreachable, [.evOpen])
  else
    match os.allocBase with
    | none => (.error .AllocationFailed, [.evOpen, .evAlloc, .evClose])
    | some _ =>
      if os.writeOk = false then
        (.error .WriteFailed, [.evOpen, .evAlloc, .evWrite, .evFree, .evClose])
      else
        match os.resolveAddr with
        | none =>
          (.error .SymbolResolutionFailed,
            [.evOpen, .evAlloc, .evWrite, .evResolve, .evFree, .evClose])
        | some _ =>
          if os.threadOk = false then
            (.error .RemoteExecutionFailed,
              [.evOpen, .evAlloc, .evWrite, .evResolve, .evCreateThread, .evFree,
                .evClose])
          else if os.waitSignaled = false then
            (.error .Timeout,
              [.evOpen, .evAlloc, .evWrite, .evResolve, .evCreateThread, .evWait,
                .evClose])
          else
            (.ok os.exitCode,
              [.evOpen, .evAlloc, .evWrite, .evResolve, .evCreateThread, .evWait,
                .evFree, .evClose])

/-! ## Theorems -/

/-- C1: the claim says `wait_for_single_object` reports the `Timeout` error
exactly when the OS wait returns its timeout outcome.  The code diverges:
the OS timeout outcome `WAIT_TIMEOUT = 0x102` is returned as a success
value, and `Error::Timeout` is produced instead exactly on
`WAIT_FAILED = 0xFFFFFFFF`, which is the OS's failure outcome, not its
timeout outcome. -/
theorem C1_wait_timeout_eval :
    wait_for_single_object 0x102 = Except.ok 0x102 ∧
    wait_for_single_object 0xFFFFFFFF = Except.error Error.Timeout := by
  constructor <;> rfl

/-- C2 counterexample: the claim says every wrapped OS call, in particular
`open_process`, hands the caller a typed Result, never an unchecked raw
value.  When `OpenProcess` fails and returns the null handle `0`,
`open_process` hands the caller the raw value `0` with no check. -/
theorem C2_counterexample :
    open_process_view 0 = OpReturn.raw 0 ∧
    (open_process_view 0).isChecked = false := by
  constructor <;> rfl

/-- Every `Result`-returning wrapper has a checked return shape. -/
theorem resultView_isChecked {α : Type} (r : Except Error α) :
    (resultView r).isChecked = true := by
  cases r <;> rfl

/-- C2 (amended): every fallible wrapper in the OS Capability Layer returns
a self-contained typed Result whose error carries the `GetLastError` detail
inline, except that `open_process` and `get_current_process` (and the
key-state query) hand back the raw OS value unchecked. -/
theorem C2_typed_results (b : Bool) (e : Nat) (hinst h : Int) (n pid sz : Nat)
    (addr : Option Nat) (w : WriteOsOutcome) :
    (resultView (get_module_handle hinst e)).isChecked = true ∧
    (resultView (virtual_query_ex n e)).isChecked = true ∧
    (resultView (virtual_protect_ex b e)).isChecked = true ∧
    (resultView (virtual_protect b e)).isChecked = true ∧
    (resultView (wait_for_single_object n)).isChecked = true ∧
    (resultView (create_remote_thread h e)).isChecked = true ∧
    (resultView (create_thread h e)).isChecked = true ∧
    (resultView (close_handle b e)).isChecked = true ∧
    (resultView (alloc_console b e)).isChecked = true ∧
    (resultView (free_console b e)).isChecked = true ∧
    (resultView (create_tool_help32_snapshot h e)).isChecked = true ∧
    (resultView (module32_first b e)).isChecked = true ∧
    (resultView (module32_next b e)).isChecked = true ∧
    (resultView (process32_first b e)).isChecked = true ∧
    (resultView (process32_next b e)).isChecked = true ∧
    (resultView (write_process_memory sz w e)).isChecked = true ∧
    (resultView (read_process_memory b e)).isChecked = true ∧
    (resultView (get_proc_address addr e)).isChecked = true ∧
    (resultView (virtual_alloc_ex n e)).isChecked = true ∧
    (resultView (virtual_free_ex b e)).isChecked = true ∧
    (resultView (disable_thread_library_calls b e)).isChecked = true ∧
    (resultView (get_process_id pid e)).isChecked = true ∧
    close_handle false e = Except.error (Error.Handle e) ∧
    virtual_alloc_ex 0 e = Except.error (Error.MemoryError e) ∧
    (open_process_view h).isChecked = false ∧
    (get_current_process_view h).isChecked = false ∧
    (get_async_key_state_view h).isChecked = false := by
  refine ⟨?_, ?_, ?_, ?_, ?_, ?_, ?_, ?_, ?_, ?_, ?_, ?_, ?_, ?_, ?_, ?_, ?_,
    ?_, ?_, ?_, ?_, ?_, rfl, rfl, rfl, rfl, rfl⟩ <;>
    exact resultView_isChecked _

/-- C3: `get_module_handle` returns a `Handle` error exactly when the
instance the OS returned is negative, and otherwise (zero included)
returns the instance as success. -/
theorem C3_get_module_handle (h : Int) (e : Nat) :
    (h < 0 → get_module_handle h e = Except.error (Error.Handle e)) ∧
    (0 ≤ h → get_module_handle h e = Except.ok h) := by
  constructor
  · intro hneg
    simp [get_module_handle, hneg]
  · intro hpos
    simp [get_module_handle, not_lt.mpr hpos]

/-- Witness for C3 at the negative instance `-1` and the null instance `0`. -/
theorem C3_witness :
    get_module_handle (-1) 5 = Except.error (Error.Handle 5) ∧
    get_module_handle 0 5 = Except.ok 0 :=
  ⟨(C3_get_module_handle (-1) 5).1 (by decide),
   (C3_get_module_handle 0 5).2 (by decide)⟩

/-- C4: under the OS contract that a true `WriteProcessMemory` BOOL means
the whole requested area was written, `write_process_memory` never reports
success for a write that transferred fewer bytes than its size argument. -/
theorem C4_write_no_partial_success (size : Nat) (os : WriteOsOutcome) (e : Nat)
    (hcontract : os.success = true → os.written = size) :
    write_process_memory size os e = Except.ok () → ¬ os.written < size := by
  intro hok
  cases hs : os.success with
  | false => simp [write_process_memory, hs] at hok
  | true => simp [hcontract hs]

/-- Witness for C4: a fully transferred 4-byte write. -/
theorem C4_witness :
    write_process_memory 4 ⟨true, 4⟩ 0 = Except.ok () ∧
    ¬ (⟨true, 4⟩ : WriteOsOutcome).written < 4 :=
  ⟨rfl, C4_write_no_partial_success 4 ⟨true, 4⟩ 0 (fun _ => rfl) rfl⟩

/-- C5: for every run of the modelled engine in which phases before (b)
succeed and entry-point resolution (phase b) fails, the call returns
`SymbolResolutionFailed`, no remote thread is ever created, and the staged
allocation from phase (a) is freed. -/
theorem C5_phaseB_failure (os : OsBehavior) (b : Nat)
    (hopen : os.openOk = true) (halloc : os.allocBase = some b)
    (hwrite : os.writeOk = true) (hres : os.resolveAddr = none) :
    (inject true os).1 = Except.error InjectError.SymbolResolutionFailed ∧
    Ev.evCreateThread ∉ (inject true os).2 ∧
    Ev.evFree ∈ (inject true os).2 := by
  simp [inject, hopen, halloc, hwrite, hres]

/-- Witness for C5: an OS behavior whose resolution step fails. -/
theorem C5_witness :
    (inject true ⟨true, some 7, true, none, true, true, 0⟩).1 =
      Except.error InjectError.SymbolResolutionFailed ∧
    Ev.evCreateThread ∉ (inject true ⟨true, some 7, true, none, true, true, 0⟩).2 ∧
    Ev.evFree ∈ (inject true ⟨true, some 7, true, none, true, true, 0⟩).2 :=
  C5_phaseB_failure ⟨true, some 7, true, none, true, true, 0⟩ 7 rfl rfl rfl rfl

/-- C6: on every run of the modelled engine in which the process handle is
opened (valid path, successful open), the handle is closed exactly once and
the close is the last OS-layer call of the run, so the handle is never used
after it is closed. -/
theorem C6_close_exactly_once (os : OsBehavior) (hopen : os.openOk = true) :
    (inject true os).2.count Ev.evClose = 1 ∧
    (inject true os).2.getLast? = some Ev.evClose := by
  obtain ⟨o, a, w, r, t, s, ec⟩ := os
  simp only at hopen
  subst hopen
  cases a <;> cases w <;> cases r <;> cases t <;> cases s <;> exact ⟨rfl, rfl⟩

/-- Witness for C6 on a fully successful run. -/
theorem C6_witness :
    (inject true ⟨true, some 7, true, some 9, true, true, 1⟩).2.count Ev.evClose = 1 ∧
    (inject true ⟨true, some 7, true, some 9, true, true, 1⟩).2.getLast? =
      some Ev.evClose :=
  C6_close_exactly_once ⟨true, some 7, true, some 9, true, true, 1⟩ rfl

/-- C7: for every module path that does not reference an existing, readable
file, the modelled engine reports `InvalidInput` and makes no OS-layer call
at all. -/
theorem C7_invalid_input (os : OsBehavior) :
    (inject false os).1 = Except.error InjectError.InvalidInput ∧
    (inject false os).2 = [] :=
  ⟨rfl, rfl⟩

/-- C8: `get_proc_address` fails exactly when the OS reports no address for
the symbol, and otherwise returns the resolved address as success. -/
theorem C8_get_proc_address (osResult : Option Nat) (e : Nat) :
    (get_proc_address osResult e = Except.error (Error.ProcessAddress e) ↔
      osResult = none) ∧
    (∀ a, osResult = some a → get_proc_address osResult e = Except.ok a) := by
  cases osResult <;> simp [get_proc_address]

/-- Witness for C8 at a missing symbol and at a resolved address. -/
theorem C8_witness :
    get_proc_address none 3 = Except.error (Error.ProcessAddress 3) ∧
    get_proc_address (some 12) 3 = Except.ok 12 :=
  ⟨(C8_get_proc_address none 3).1.mpr rfl,
   (C8_get_proc_address (some 12) 3).2 12 rfl⟩

/-- C9: `virtual_alloc_ex` returns the allocation-failure error exactly when
the OS returns a null base address, so every successful allocation result
carries a non-null address. -/
theorem C9_virtual_alloc_ex (osResult e : Nat) :
    (virtual_alloc_ex osResult e = Except.error (Error.MemoryError e) ↔
      osResult = 0) ∧
    (∀ v, virtual_alloc_ex osResult e = Except.ok v → v = osResult ∧ v ≠ 0) := by
  by_cases h : osResult = 0 <;> simp [virtual_alloc_ex, h]

/-- Witness for C9 at the null base and at base `20`. -/
theorem C9_witness :
    virtual_alloc_ex 0 9 = Except.error (Error.MemoryError 9) ∧
    virtual_alloc_ex 20 9 = Except.ok 20 ∧ (20 = 20 ∧ (20 : Nat) ≠ 0) :=
  ⟨(C9_virtual_alloc_ex 0 9).1.mpr rfl, rfl, (C9_virtual_alloc_ex 20 9).2 20 rfl⟩

/-- C10: for `create_remote_thread` and `create_thread`, passing `None` for
`thread_attributes`, `parameter`, or `thread_id` builds the same OS-call
argument tuple as passing a null pointer, and each wrapper returns an error
exactly when the OS returns an invalid thread handle, otherwise the handle
itself. -/
theorem C10_thread_creation (p st : Int) (sz fl : Nat) (h : Int) (e : Nat) :
    create_remote_thread_args p none sz st none fl none =
      create_remote_thread_args p (some 0) sz st (some 0) fl (some 0) ∧
    create_thread_args none sz st none fl none =
      create_thread_args (some 0) sz st (some 0) fl (some 0) ∧
    (handleIsInvalid h = true →
      create_remote_thread h e = Except.error (Error.ProcessError e) ∧
      create_thread h e = Except.error (Error.ProcessError e)) ∧
    (handleIsInvalid h = false →
      create_remote_thread h e = Except.ok h ∧ create_thread h e = Except.ok h) := by
  refine ⟨rfl, rfl, ?_, ?_⟩ <;> intro hi <;>
    simp [create_remote_thread, create_thread, hi]

/-- Witness for C10 at the null handle `0` and the valid handle `44`. -/
theorem C10_witness :
    (create_remote_thread 0 6 = Except.error (Error.ProcessError 6) ∧
      create_thread 0 6 = Except.error (Error.ProcessError 6)) ∧
    (create_remote_thread 44 6 = Except.ok 44 ∧
      create_thread 44 6 = Except.ok 44) :=
  ⟨(C10_thread_creation 0 0 0 0 0 6).2.2.1 rfl,
   (C10_thread_creation 0 0 0 0 44 6).2.2.2 rfl⟩
